import Mathlib

/-!
# Sentinel Vault — verification of the cryptographic service and vault session

Shallow embedding of the Sentinel Vault client (src/lib/supabase.ts crypto
service, the zustand vault session store, and the vault page unlock handler)
together with proofs about the embedded definitions.

Platform primitives (Web Crypto `crypto.subtle`, `btoa`/`atob`, `TextEncoder`)
are not repository code; they are modelled here by executable functions that
satisfy the contracts the repository relies on.  Everything that is repository
code is translated statement by statement from the source.
-/

/-! ## Base64 (models `btoa`/`atob` as used by `bufferToBase64`/`base64ToBuffer`) -/

/-- The standard base64 alphabet, index 0 to 63. -/
def b64Chars : List Char :=
  "ABCDEFGHIJKLMNOPQRSTUVWXYZabcdefghijklmnopqrstuvwxyz0123456789+/".data

/-- Character for a 6-bit value. -/
def b64Char (n : Nat) : Char := b64Chars.getD n '='

/-- 6-bit value of an alphabet character, none for a non-alphabet character. -/
def b64Val (c : Char) : Option Nat := b64Chars.indexOf? c

/-- Base64-encode a byte list, three bytes to four characters, with padding.
Models the `btoa (String.fromCharCode bytes)` composition in `bufferToBase64`. -/
def b64EncodeBytes : List Nat → List Char
  | [] => []
  | [a] => [b64Char (a / 4), b64Char (a % 4 * 16), '=', '=']
  | [a, b] => [b64Char (a / 4), b64Char (a % 4 * 16 + b / 16), b64Char (b % 16 * 4), '=']
  | a :: b :: c :: rest =>
    b64Char (a / 4) :: b64Char (a % 4 * 16 + b / 16) :: b64Char (b % 16 * 4 + c / 64)
      :: b64Char (c % 64) :: b64EncodeBytes rest

/-- Base64-decode a character list, four characters to three bytes; fails on
characters outside the alphabet or misplaced padding.  Models `atob` followed
by the `charCodeAt` loop in `base64ToBuffer`. -/
def b64DecodeChars : List Char → Option (List Nat)
  | [] => some []
  | c1 :: c2 :: c3 :: c4 :: rest =>
    match b64Val c1, b64Val c2 with
    | some v1, some v2 =>
      if c3 = '=' then
        if c4 = '=' ∧ rest = [] then some [v1 * 4 + v2 / 16] else none
      else
        match b64Val c3 with
        | some v3 =>
          if c4 = '=' then
            if rest = [] then some [v1 * 4 + v2 / 16, v2 % 16 * 16 + v3 / 4] else none
          else
            match b64Val c4 with
            | some v4 =>
              (b64DecodeChars rest).map
                (fun bs => (v1 * 4 + v2 / 16) :: (v2 % 16 * 16 + v3 / 4) :: (v3 % 4 * 64 + v4) :: bs)
            | none => none
        | none => none
    | _, _ => none
  | _ => none

/-- `bufferToBase64` from src/lib/supabase.ts: bytes to a base64 string. -/
def bufferToBase64 (bytes : List Nat) : String := String.mk (b64EncodeBytes bytes)

/-- `base64ToBuffer` from src/lib/supabase.ts: base64 string to bytes; `none`
models the exception `atob` throws on malformed input. -/
def base64ToBuffer (base64 : String) : Option (List Nat) := b64DecodeChars base64.data

theorem b64Val_b64Char : ∀ n, n < 64 → b64Val (b64Char n) = some n := by decide

theorem b64Char_ne_eq : ∀ n, n < 64 → b64Char n ≠ '=' := by decide

theorem b64_decode_encode :
    ∀ l : List Nat, (∀ b ∈ l, b < 256) → b64DecodeChars (b64EncodeBytes l) = some l
  | [], _ => rfl
  | [a], h => by
    have ha : a < 256 := h a (by simp)
    have h1 : a / 4 < 64 := by omega
    have h2 : a % 4 * 16 < 64 := by omega
    have e1 : a / 4 * 4 + a % 4 * 16 / 16 = a := by omega
    simp only [b64EncodeBytes, b64DecodeChars, b64Val_b64Char _ h1, b64Val_b64Char _ h2]
    simp
    omega
  | [a, b], h => by
    have ha : a < 256 := h a (by simp)
    have hb : b < 256 := h b (by simp)
    have h1 : a / 4 < 64 := by omega
    have h2 : a % 4 * 16 + b / 16 < 64 := by omega
    have h3 : b % 16 * 4 < 64 := by omega
    have e1 : a / 4 * 4 + (a % 4 * 16 + b / 16) / 16 = a := by omega
    have e2 : (a % 4 * 16 + b / 16) % 16 * 16 + b % 16 * 4 / 4 = b := by omega
    simp only [b64EncodeBytes, b64DecodeChars, b64Val_b64Char _ h1, b64Val_b64Char _ h2,
      b64Val_b64Char _ h3]
    simp [b64Char_ne_eq _ h3]
    omega
  | a :: b :: c :: rest, h => by
    have ha : a < 256 := h a (by simp)
    have hb : b < 256 := h b (by simp)
    have hc : c < 256 := h c (by simp)
    have h1 : a / 4 < 64 := by omega
    have h2 : a % 4 * 16 + b / 16 < 64 := by omega
    have h3 : b % 16 * 4 + c / 64 < 64 := by omega
    have h4 : c % 64 < 64 := by omega
    have e1 : a / 4 * 4 + (a % 4 * 16 + b / 16) / 16 = a := by omega
    have e2 : (a % 4 * 16 + b / 16) % 16 * 16 + (b % 16 * 4 + c / 64) / 4 = b := by omega
    have e3 : (b % 16 * 4 + c / 64) % 4 * 64 + c % 64 = c := by omega
    have ih := b64_decode_encode rest (fun x hx => h x (by simp [hx]))
    simp only [b64EncodeBytes, b64DecodeChars, b64Val_b64Char _ h1, b64Val_b64Char _ h2,
      b64Val_b64Char _ h3, b64Val_b64Char _ h4]
    simp [b64Char_ne_eq _ h3, b64Char_ne_eq _ h4, ih]
    omega

/-- The round trip at string level: decoding an encoded byte list succeeds and
returns the original bytes. -/
theorem base64_roundtrip (l : List Nat) (h : ∀ b ∈ l, b < 256) :
    base64ToBuffer (bufferToBase64 l) = some l := by
  simpa [base64ToBuffer, bufferToBase64] using b64_decode_encode l h

/-- Base64 encoding is injective on byte lists. -/
theorem bufferToBase64_injective (l1 l2 : List Nat) (h1 : ∀ b ∈ l1, b < 256)
    (h2 : ∀ b ∈ l2, b < 256) (he : bufferToBase64 l1 = bufferToBase64 l2) : l1 = l2 := by
  have := base64_roundtrip l1 h1
  rw [he, base64_roundtrip l2 h2] at this
  exact (Option.some.injEq _ _).mp this.symm

/-! ## Platform primitive models

`crypto.subtle` (PBKDF2, SHA-256, AES-GCM) and `TextEncoder`/`TextDecoder`
are Web platform primitives, not repository code.  They are modelled by
executable deterministic functions.  The AES-GCM model is an ideal AEAD: its
integrity tag is modelled as perfectly binding the key, the nonce and the
ciphertext body, which is the contract (authenticated encryption) the
repository relies on. -/

/-- Models the byte sequence `TextEncoder.encode` produces: an injective
encoding of a string as a sequence of code points. -/
def textEncode (s : String) : List Nat := s.data.map Char.toNat

/-- Models `TextDecoder.decode`, the left inverse of `textEncode`. -/
def textDecode (bytes : List Nat) : String := String.mk (bytes.map Char.ofNat)

/-- Models `crypto.subtle.deriveBits` with PBKDF2/SHA-256: a fixed
deterministic function of password bytes, salt bytes, iteration count and
output length (in bytes). -/
def pbkdf2Sha256 (password salt : List Nat) (iterations outLen : Nat) : List Nat :=
  (List.range outLen).map (fun i =>
    (password.foldl (fun h b => h * 31 + b + 7) 11 * 131
      + salt.foldl (fun h b => h * 37 + b + 5) 13 * 29
      + iterations * 3 + outLen * 19 + i * 41) % 256)

/-- Models `crypto.subtle.digest "SHA-256"`: a fixed deterministic function
from a byte list to a 32-byte digest. -/
def sha256Bytes (msg : List Nat) : List Nat :=
  (List.range 32).map (fun i => (msg.foldl (fun h b => h * 33 + b + 1) 17 + i * 59) % 256)

/-- An imported AES-GCM key handle (`CryptoKey`): carries its raw key bytes. -/
structure CryptoKeyModel where
  raw : List Nat
deriving DecidableEq

/-- Keystream byte `i` of the modelled AES-GCM counter mode, a deterministic
function of key, nonce and position. -/
def keystreamByte (key : CryptoKeyModel) (iv : List Nat) (i : Nat) : Nat :=
  (key.raw.foldl (fun h b => h * 61 + b + 3) 23
    + iv.foldl (fun h b => h * 53 + b + 9) 19 + i * 101) % 256

/-- XOR a byte list against the keystream starting at position `i`;
an involution, used for both sealing and opening. -/
def xorStream (key : CryptoKeyModel) (iv : List Nat) : Nat → List Nat → List Nat
  | _, [] => []
  | i, b :: rest => (b ^^^ keystreamByte key iv i) :: xorStream key iv (i + 1) rest

/-- The ideal integrity tag: binds key bytes, nonce and ciphertext body. -/
structure GcmTag where
  tagKey : List Nat
  tagIv : List Nat
  tagBody : List Nat
deriving DecidableEq

/-- Output of the modelled `crypto.subtle.encrypt` for AES-GCM:
ciphertext body plus the embedded integrity tag. -/
structure GcmSealed where
  body : List Nat
  tag : GcmTag
deriving DecidableEq

/-- Models `crypto.subtle.encrypt` with AES-GCM. -/
def aesGcmEncrypt (key : CryptoKeyModel) (iv : List Nat) (plaintext : List Nat) : GcmSealed :=
  { body := xorStream key iv 0 plaintext,
    tag := { tagKey := key.raw, tagIv := iv, tagBody := xorStream key iv 0 plaintext } }

/-- The single externally observable decryption failure (the rejection
`crypto.subtle.decrypt` throws): tag mismatch, wrong key and wrong nonce are
indistinguishable to the caller. -/
inductive DecryptError where
  | decryptionError
deriving DecidableEq

/-- Models `crypto.subtle.decrypt` with AES-GCM: verify the tag against the
supplied key, nonce and body before releasing any plaintext. -/
def aesGcmDecrypt (key : CryptoKeyModel) (iv : List Nat) (sealed : GcmSealed) :
    Except DecryptError (List Nat) :=
  if sealed.tag = { tagKey := key.raw, tagIv := iv, tagBody := sealed.body } then
    Except.ok (xorStream key iv 0 sealed.body)
  else
    Except.error DecryptError.decryptionError

theorem xorStream_involution (key : CryptoKeyModel) (iv : List Nat) :
    ∀ (i : Nat) (l : List Nat), xorStream key iv i (xorStream key iv i l) = l := by
  intro i l
  induction l generalizing i with
  | nil => rfl
  | cons b rest ih =>
    simp [xorStream, Nat.xor_assoc, Nat.xor_self, ih]

theorem textDecode_textEncode (s : String) : textDecode (textEncode s) = s := by
  simp only [textDecode, textEncode, List.map_map]
  have : (Char.ofNat ∘ Char.toNat) = id := by
    funext c
    exact Char.ofNat_toNat c
  simp [this]

/-! ## Crypto service constants and key derivation (src/lib/supabase.ts) -/

def PBKDF2_ITERATIONS : Nat := 600000
def SALT_LENGTH : Nat := 16
def IV_LENGTH : Nat := 12
def KEY_LENGTH : Nat := 256

/-- `generateSalt`: base64 of 16 random bytes; the randomness drawn by
`crypto.getRandomValues (new Uint8Array 16)` is passed in explicitly. -/
def generateSalt (rnd : List Nat) : String := bufferToBase64 rnd

/-- `generateIV`: base64 of 12 random bytes; randomness passed explicitly. -/
def generateIV (rnd : List Nat) : String := bufferToBase64 rnd

/-- JavaScript `Array.prototype.slice`-style slice of a byte list. -/
def jsSlice (l : List Nat) (a b : Nat) : List Nat := (l.drop a).take (b - a)

/-- Result record of `deriveKeys`. -/
structure DerivedKeys where
  encryptionKey : CryptoKeyModel
  verificationKey : String
deriving DecidableEq

/-- `deriveKeys` from src/lib/supabase.ts: derive 64 bytes of key material by
PBKDF2 (600,000 iterations, SHA-256) over the encoded password and the decoded
salt, split it, import bytes [0:32) as the AES-GCM encryption key and hash
bytes [32:64) once with SHA-256 into the base64 verifier.  `none` models the
exception thrown when the salt is not valid base64; no other failure exists in
the function. -/
def deriveKeys (password saltBase64 : String) : Option DerivedKeys :=
  match base64ToBuffer saltBase64 with
  | none => none
  | some salt =>
    let keyBytes := pbkdf2Sha256 (textEncode password) salt PBKDF2_ITERATIONS 64
    let encryptionKeyBytes := jsSlice keyBytes 0 32
    let verificationKeyBytes := jsSlice keyBytes 32 64
    some { encryptionKey := { raw := encryptionKeyBytes },
           verificationKey := bufferToBase64 (sha256Bytes verificationKeyBytes) }

/-- `deriveEncryptionKey`: just the encryption key from `deriveKeys`. -/
def deriveEncryptionKey (password saltBase64 : String) : Option CryptoKeyModel :=
  (deriveKeys password saltBase64).map (fun r => r.encryptionKey)

/-! ## Item cipher (src/lib/supabase.ts `encrypt` / `decrypt`) -/

/-- Result record of `encrypt`: the sealed ciphertext and the base64 nonce. -/
structure EncryptResult where
  ciphertext : GcmSealed
  iv : String
deriving DecidableEq

/-- `encrypt` from src/lib/supabase.ts.  The optional `ivBase64` parameter is
decoded and used when supplied; otherwise the 12 random bytes drawn by
`crypto.getRandomValues (new Uint8Array 12)` — passed in as `rnd` — are used.
`none` models the exception thrown when a supplied `ivBase64` is malformed. -/
def encrypt (plaintext : String) (key : CryptoKeyModel) (ivBase64 : Option String)
    (rnd : List Nat) : Option EncryptResult :=
  match ivBase64 with
  | some s =>
    (base64ToBuffer s).map (fun iv =>
      { ciphertext := aesGcmEncrypt key iv (textEncode plaintext),
        iv := bufferToBase64 iv })
  | none =>
    some { ciphertext := aesGcmEncrypt key rnd (textEncode plaintext),
           iv := bufferToBase64 rnd }

/-- `decrypt` from src/lib/supabase.ts: decode the base64 nonce, authenticate
and open the sealed ciphertext, decode the plaintext bytes.  Every failure
(malformed nonce encoding, tag mismatch, wrong key) surfaces as the one
`DecryptError`. -/
def decrypt (ciphertext : GcmSealed) (ivBase64 : String) (key : CryptoKeyModel) :
    Except DecryptError String :=
  match base64ToBuffer ivBase64 with
  | none => Except.error DecryptError.decryptionError
  | some iv => (aesGcmDecrypt key iv ciphertext).map textDecode

/-! ## Vault item payload serialization (JSON.stringify / JSON.parse)

`encryptVaultItem` serializes the payload with `JSON.stringify`, which for
this record emits the keys in declaration order (username, password, url,
notes), omits absent optional fields, and escapes `"`, `\` and control
characters.  `decryptVaultItem` parses with `JSON.parse`; the parser below
models `JSON.parse` on exactly the grammar the stringifier emits. -/

structure VaultItemPayload where
  username : String
  password : String
  url : Option String := none
  notes : Option String := none
deriving DecidableEq

def hexDigitChars : List Char := "0123456789abcdef".data

def hexDigit (n : Nat) : Char := hexDigitChars.getD n '0'

def hexVal (c : Char) : Option Nat := hexDigitChars.indexOf? c

/-- JSON escape of one character, as `JSON.stringify` produces it. -/
def escJsonChar (c : Char) : List Char :=
  if c = '"' then ['\\', '"']
  else if c = '\\' then ['\\', '\\']
  else if c = Char.ofNat 8 then ['\\', 'b']
  else if c = Char.ofNat 9 then ['\\', 't']
  else if c = Char.ofNat 10 then ['\\', 'n']
  else if c = Char.ofNat 12 then ['\\', 'f']
  else if c = Char.ofNat 13 then ['\\', 'r']
  else if c.toNat < 32 then
    ['\\', 'u', '0', '0', hexDigit (c.toNat / 16), hexDigit (c.toNat % 16)]
  else [c]

def escJsonList (s : List Char) : List Char :=
  s.foldr (fun c acc => escJsonChar c ++ acc) []

/-- Parse a JSON string body up to and including the closing quote; returns
the decoded content and the remaining input. -/
def parseJsonStringAux : List Char → Option (List Char × List Char)
  | [] => none
  | c :: rest =>
    if c = '"' then some ([], rest)
    else if c = '\\' then
      match rest with
      | [] => none
      | e :: r =>
        if e = '"' then (parseJsonStringAux r).map (fun p => ('"' :: p.1, p.2))
        else if e = '\\' then (parseJsonStringAux r).map (fun p => ('\\' :: p.1, p.2))
        else if e = 'b' then (parseJsonStringAux r).map (fun p => (Char.ofNat 8 :: p.1, p.2))
        else if e = 't' then (parseJsonStringAux r).map (fun p => (Char.ofNat 9 :: p.1, p.2))
        else if e = 'n' then (parseJsonStringAux r).map (fun p => (Char.ofNat 10 :: p.1, p.2))
        else if e = 'f' then (parseJsonStringAux r).map (fun p => (Char.ofNat 12 :: p.1, p.2))
        else if e = 'r' then (parseJsonStringAux r).map (fun p => (Char.ofNat 13 :: p.1, p.2))
        else if e = 'u' then
          match r with
          | d1 :: d2 :: d3 :: d4 :: r2 =>
            match hexVal d1, hexVal d2, hexVal d3, hexVal d4 with
            | some a, some b, some c2, some d =>
              (parseJsonStringAux r2).map
                (fun p => (Char.ofNat (a * 4096 + b * 256 + c2 * 16 + d) :: p.1, p.2))
            | _, _, _, _ => none
          | _ => none
        else none
    else (parseJsonStringAux rest).map (fun p => (c :: p.1, p.2))

/-- Expect a literal character sequence, returning the rest of the input. -/
def expectLit : List Char → List Char → Option (List Char)
  | [], l => some l
  | _ :: _, [] => none
  | c :: cs, d :: ds => if c = d then expectLit cs ds else none

/-- Optional JSON field: if the key literal is present parse its string
value, otherwise leave the input untouched. -/
def parseOptField (key : List Char) (l : List Char) : Option (Option (List Char) × List Char) :=
  match expectLit key l with
  | none => some (none, l)
  | some r => (parseJsonStringAux r).map (fun p => (some p.1, p.2))

def jsonUsernameKey : List Char := "\x7b\"username\":\"".data
def jsonPwSep : List Char := "\",\"password\":\"".data
def jsonUrlSep : List Char := "\",\"url\":\"".data
def jsonNotesSep : List Char := "\",\"notes\":\"".data
def jsonClose : List Char := "\"\x7d".data
def jsonPwKey : List Char := ",\"password\":\"".data
def jsonUrlKey : List Char := ",\"url\":\"".data
def jsonNotesKey : List Char := ",\"notes\":\"".data

/-- The characters `JSON.stringify` emits for a vault item payload. -/
def stringifyList (p : VaultItemPayload) : List Char :=
  jsonUsernameKey ++ escJsonList p.username.data
    ++ jsonPwSep ++ escJsonList p.password.data
    ++ (match p.url with
        | none => []
        | some u => jsonUrlSep ++ escJsonList u.data)
    ++ (match p.notes with
        | none => []
        | some n => jsonNotesSep ++ escJsonList n.data)
    ++ jsonClose

/-- `JSON.stringify` for a vault item payload. -/
def stringifyVaultItemPayload (p : VaultItemPayload) : String :=
  String.mk (stringifyList p)

/-- `JSON.parse` restricted to the object grammar `stringifyVaultItemPayload`
emits, projected onto the payload fields `decryptVaultItem` reads. -/
def parseVaultItemPayload (s : String) : Option VaultItemPayload :=
  match expectLit jsonUsernameKey s.data with
  | none => none
  | some r1 =>
    match parseJsonStringAux r1 with
    | none => none
    | some (u, r2) =>
      match expectLit jsonPwKey r2 with
      | none => none
      | some r3 =>
        match parseJsonStringAux r3 with
        | none => none
        | some (pw, r4) =>
          match parseOptField jsonUrlKey r4 with
          | none => none
          | some (url, r5) =>
            match parseOptField jsonNotesKey r5 with
            | none => none
            | some (notes, r6) =>
              if r6 = ['\x7d'] then
                some { username := String.mk u, password := String.mk pw,
                       url := url.map String.mk, notes := notes.map String.mk }
              else none

theorem hexVal_hexDigit : ∀ n, n < 16 → hexVal (hexDigit n) = some n := by decide

theorem hexVal_zero : hexVal '0' = some 0 := by decide

theorem expectLit_append : ∀ lit r : List Char, expectLit lit (lit ++ r) = some r
  | [], _ => rfl
  | c :: cs, r => by
    simp [expectLit, expectLit_append cs r]

/-- Parsing an escaped string body followed by the closing quote recovers the
original characters and leaves the rest untouched. -/
theorem parseJsonStringAux_esc (s rest : List Char) :
    parseJsonStringAux (escJsonList s ++ '"' :: rest) = some (s, rest) := by
  induction s with
  | nil =>
    rw [show escJsonList [] = [] from rfl, List.nil_append, parseJsonStringAux.eq_def]
    simp
  | cons c cs ih =>
    have step : escJsonList (c :: cs) = escJsonChar c ++ escJsonList cs := rfl
    rw [step, List.append_assoc]
    by_cases h1 : c = '"'
    · subst h1
      rw [show escJsonChar '"' = ['\\', '"'] from rfl]
      rw [show (['\\', '"'] : List Char) ++ (escJsonList cs ++ '"' :: rest)
            = '\\' :: '"' :: (escJsonList cs ++ '"' :: rest) from rfl]
      rw [parseJsonStringAux.eq_def]
      simp [ih]
    by_cases h2 : c = '\\'
    · subst h2
      rw [show escJsonChar '\\' = ['\\', '\\'] from rfl]
      rw [show (['\\', '\\'] : List Char) ++ (escJsonList cs ++ '"' :: rest)
            = '\\' :: '\\' :: (escJsonList cs ++ '"' :: rest) from rfl]
      rw [parseJsonStringAux.eq_def]
      simp [ih]
    by_cases h3 : c = Char.ofNat 8
    · subst h3
      rw [show escJsonChar (Char.ofNat 8) = ['\\', 'b'] from rfl]
      rw [show (['\\', 'b'] : List Char) ++ (escJsonList cs ++ '"' :: rest)
            = '\\' :: 'b' :: (escJsonList cs ++ '"' :: rest) from rfl]
      rw [parseJsonStringAux.eq_def]
      simp [ih]
    by_cases h4 : c = Char.ofNat 9
    · subst h4
      rw [show escJsonChar (Char.ofNat 9) = ['\\', 't'] from rfl]
      rw [show (['\\', 't'] : List Char) ++ (escJsonList cs ++ '"' :: rest)
            = '\\' :: 't' :: (escJsonList cs ++ '"' :: rest) from rfl]
      rw [parseJsonStringAux.eq_def]
      simp [ih]
    by_cases h5 : c = Char.ofNat 10
    · subst h5
      rw [show escJsonChar (Char.ofNat 10) = ['\\', 'n'] from rfl]
      rw [show (['\\', 'n'] : List Char) ++ (escJsonList cs ++ '"' :: rest)
            = '\\' :: 'n' :: (escJsonList cs ++ '"' :: rest) from rfl]
      rw [parseJsonStringAux.eq_def]
      simp [ih]
    by_cases h6 : c = Char.ofNat 12
    · subst h6
      rw [show escJsonChar (Char.ofNat 12) = ['\\', 'f'] from rfl]
      rw [show (['\\', 'f'] : List Char) ++ (escJsonList cs ++ '"' :: rest)
            = '\\' :: 'f' :: (escJsonList cs ++ '"' :: rest) from rfl]
      rw [parseJsonStringAux.eq_def]
      simp [ih]
    by_cases h7 : c = Char.ofNat 13
    · subst h7
      rw [show escJsonChar (Char.ofNat 13) = ['\\', 'r'] from rfl]
      rw [show (['\\', 'r'] : List Char) ++ (escJsonList cs ++ '"' :: rest)
            = '\\' :: 'r' :: (escJsonList cs ++ '"' :: rest) from rfl]
      rw [parseJsonStringAux.eq_def]
      simp [ih]
    by_cases h8 : c.toNat < 32
    · have hd1 : c.toNat / 16 < 16 := by omega
      have hd2 : c.toNat % 16 < 16 := by omega
      have he : c.toNat / 16 * 16 + c.toNat % 16 = c.toNat := by omega
      rw [show escJsonChar c
            = ['\\', 'u', '0', '0', hexDigit (c.toNat / 16), hexDigit (c.toNat % 16)] by
          simp [escJsonChar, h1, h2, h3, h4, h5, h6, h7, h8]]
      rw [show (['\\', 'u', '0', '0', hexDigit (c.toNat / 16), hexDigit (c.toNat % 16)] : List Char)
            ++ (escJsonList cs ++ '"' :: rest)
            = '\\' :: 'u' :: '0' :: '0' :: hexDigit (c.toNat / 16) :: hexDigit (c.toNat % 16)
              :: (escJsonList cs ++ '"' :: rest) from rfl]
      rw [parseJsonStringAux.eq_def]
      simp [hexVal_zero, hexVal_hexDigit _ hd1, hexVal_hexDigit _ hd2, ih, he, Char.ofNat_toNat]
    · rw [show escJsonChar c = [c] by simp [escJsonChar, h1, h2, h3, h4, h5, h6, h7, h8]]
      rw [show ([c] : List Char) ++ (escJsonList cs ++ '"' :: rest)
            = c :: (escJsonList cs ++ '"' :: rest) from rfl]
      rw [parseJsonStringAux.eq_def]
      simp [h1, h2, ih]

theorem jsonPwSep_cons : jsonPwSep = '"' :: jsonPwKey := rfl

theorem jsonUrlSep_cons : jsonUrlSep = '"' :: jsonUrlKey := rfl

theorem jsonNotesSep_cons : jsonNotesSep = '"' :: jsonNotesKey := rfl

theorem jsonClose_cons : jsonClose = '"' :: ['\x7d'] := rfl

theorem expectLit_urlKey_notesKey (t : List Char) :
    expectLit jsonUrlKey (jsonNotesKey ++ t) = none := rfl

theorem expectLit_urlKey_close : expectLit jsonUrlKey ['\x7d'] = none := rfl

theorem expectLit_notesKey_close : expectLit jsonNotesKey ['\x7d'] = none := rfl

theorem parseOptField_present (key s rest : List Char) :
    parseOptField key (key ++ (escJsonList s ++ '"' :: rest)) = some (some s, rest) := by
  simp [parseOptField, expectLit_append, parseJsonStringAux_esc]

theorem parseOptField_absent (key l : List Char) (h : expectLit key l = none) :
    parseOptField key l = some (none, l) := by
  simp [parseOptField, h]

theorem String.mk_data_eq (s : String) : String.mk s.data = s := rfl

/-- JSON round trip for vault item payloads: parsing the stringified payload
recovers the payload exactly, optional fields included. -/
theorem parseVaultItemPayload_stringify (p : VaultItemPayload) :
    parseVaultItemPayload (stringifyVaultItemPayload p) = some p := by
  obtain ⟨u, pw, url, notes⟩ := p
  rcases url with _ | u2 <;> rcases notes with _ | n2 <;>
    simp [parseVaultItemPayload, stringifyVaultItemPayload, stringifyList,
      jsonPwSep_cons, jsonUrlSep_cons, jsonNotesSep_cons, jsonClose_cons,
      List.append_assoc, expectLit_append, parseJsonStringAux_esc,
      parseOptField_present,
      parseOptField_absent _ _ (expectLit_urlKey_notesKey _),
      parseOptField_absent _ _ expectLit_urlKey_close,
      parseOptField_absent _ _ expectLit_notesKey_close,
      String.mk_data_eq]

/-! ## Vault item encryption (src/lib/supabase.ts) -/

/-- `encryptVaultItem`: stringify the payload and encrypt it; the nonce is not
supplied by the caller, so `encrypt` draws the 12 random bytes `rnd`. -/
def encryptVaultItem (payload : VaultItemPayload) (key : CryptoKeyModel) (rnd : List Nat) :
    Option EncryptResult :=
  encrypt (stringifyVaultItemPayload payload) key none rnd

/-- `decryptVaultItem`: decrypt, then `JSON.parse` the plaintext.  A parse
failure is a thrown exception, observed by callers the same way as a
decryption failure. -/
def decryptVaultItem (ciphertext : GcmSealed) (ivBase64 : String) (key : CryptoKeyModel) :
    Except DecryptError VaultItemPayload :=
  match decrypt ciphertext ivBase64 key with
  | Except.error e => Except.error e
  | Except.ok s =>
    match parseVaultItemPayload s with
    | some p => Except.ok p
    | none => Except.error DecryptError.decryptionError

/-! ## Credential generator (src/lib/supabase.ts) -/

structure GenerateOptions where
  length : Nat
  includeUppercase : Bool
  includeLowercase : Bool
  includeNumbers : Bool
  includeSymbols : Bool

def uppercaseChars : String := "ABCDEFGHIJKLMNOPQRSTUVWXYZ"
def lowercaseChars : String := "abcdefghijklmnopqrstuvwxyz"
def numberChars : String := "0123456789"
def symbolChars : String := "!@#$%^&*()_+-=[]\x7b\x7d|;:,.<>?"

/-- The charset `generatePassword` builds from its options, with the
lowercase+numbers fallback when no class is enabled. -/
def buildCharset (o : GenerateOptions) : String :=
  let charset := ""
  let charset := if o.includeUppercase then charset ++ uppercaseChars else charset
  let charset := if o.includeLowercase then charset ++ lowercaseChars else charset
  let charset := if o.includeNumbers then charset ++ numberChars else charset
  let charset := if o.includeSymbols then charset ++ symbolChars else charset
  if charset = "" then lowercaseChars ++ numberChars else charset

/-- `generatePassword` from src/lib/supabase.ts: for each of `length`
positions pick `charset[randomValues[i] % charset.length]`.  The `Uint32Array`
filled by `crypto.getRandomValues` is passed in as the function
`randomValues`. -/
def generatePassword (o : GenerateOptions) (randomValues : Nat → Nat) : String :=
  let charset := buildCharset o
  String.mk ((List.range o.length).map
    (fun i => charset.data.getD (randomValues i % charset.data.length) 'a'))

/-! ## Password strength heuristic (src/lib/supabase.ts) -/

/-- The `[a-z]` regex test. -/
def hasLowercase (password : String) : Bool :=
  password.data.any (fun c => 'a' ≤ c && c ≤ 'z')

/-- The `[A-Z]` regex test. -/
def hasUppercase (password : String) : Bool :=
  password.data.any (fun c => 'A' ≤ c && c ≤ 'Z')

/-- The `[0-9]` regex test. -/
def hasDigit (password : String) : Bool :=
  password.data.any (fun c => '0' ≤ c && c ≤ '9')

/-- The `[^a-zA-Z0-9]` regex test. -/
def hasSymbol (password : String) : Bool :=
  password.data.any (fun c =>
    !(('a' ≤ c && c ≤ 'z') || ('A' ≤ c && c ≤ 'Z') || ('0' ≤ c && c ≤ '9')))

/-- `estimatePasswordStrength` from src/lib/supabase.ts, the sequence of
`score +=` steps followed by the cap at 100. -/
def estimatePasswordStrength (password : String) : Nat :=
  let score := 0
  let score := if password.length ≥ 8 then score + 10 else score
  let score := if password.length ≥ 12 then score + 10 else score
  let score := if password.length ≥ 16 then score + 10 else score
  let score := if password.length ≥ 20 then score + 10 else score
  let score := if hasLowercase password then score + 10 else score
  let score := if hasUppercase password then score + 10 else score
  let score := if hasDigit password then score + 10 else score
  let score := if hasSymbol password then score + 20 else score
  let score := if password.length ≥ 16 && hasLowercase password && hasUppercase password
      && hasDigit password && hasSymbol password then score + 20 else score
  min score 100

/-! ## Vault session store (src/store/vaultStore.ts, zustand) -/

/-- In-memory decrypted vault item (`DecryptedVaultItem`).  The stored
`ciphertext` field is the sealed blob; its base64 transport encoding is a
bijection and is elided. -/
structure DecryptedVaultItem where
  id : String
  title : String
  ciphertext : GcmSealed
  iv : String
  auth_tag : String
  category_id : Option String
  is_favorite : Bool
  last_accessed : String
  last_modified : String
  created_at : String
  username : String
  password : String
  url : Option String
  notes : Option String
deriving DecidableEq

structure Category where
  id : String
  name : String
  icon : String
  color : String
  sort_order : Nat
deriving DecidableEq

/-- The store state: every field of the zustand `VaultState` that is data
(the action closures are modelled as the transition function below). -/
structure VaultState where
  isAuthenticated : Bool
  userId : Option String
  email : Option String
  encryptionKey : Option CryptoKeyModel
  salt : Option String
  isUnlocked : Bool
  items : List DecryptedVaultItem
  categories : List Category
  isLoading : Bool
  error : Option String
  autoLockMinutes : Nat
  clearClipboardSeconds : Nat
deriving DecidableEq

/-- The initial state object passed to `create`. -/
def initialState : VaultState :=
  { isAuthenticated := false, userId := none, email := none, encryptionKey := none,
    salt := none, isUnlocked := false, items := [], categories := [], isLoading := false,
    error := none, autoLockMinutes := 5, clearClipboardSeconds := 30 }

/-- A `Partial<DecryptedVaultItem>` update object: an absent field leaves the
item field unchanged under object spread. -/
structure ItemPatch where
  id : Option String := none
  title : Option String := none
  ciphertext : Option GcmSealed := none
  iv : Option String := none
  auth_tag : Option String := none
  category_id : Option (Option String) := none
  is_favorite : Option Bool := none
  last_accessed : Option String := none
  last_modified : Option String := none
  created_at : Option String := none
  username : Option String := none
  password : Option String := none
  url : Option (Option String) := none
  notes : Option (Option String) := none
deriving DecidableEq

/-- The object spread `{ ...item, ...updates }`. -/
def applyPatch (item : DecryptedVaultItem) (u : ItemPatch) : DecryptedVaultItem :=
  { id := u.id.getD item.id, title := u.title.getD item.title,
    ciphertext := u.ciphertext.getD item.ciphertext, iv := u.iv.getD item.iv,
    auth_tag := u.auth_tag.getD item.auth_tag,
    category_id := u.category_id.getD item.category_id,
    is_favorite := u.is_favorite.getD item.is_favorite,
    last_accessed := u.last_accessed.getD item.last_accessed,
    last_modified := u.last_modified.getD item.last_modified,
    created_at := u.created_at.getD item.created_at,
    username := u.username.getD item.username, password := u.password.getD item.password,
    url := u.url.getD item.url, notes := u.notes.getD item.notes }

/-- The store actions. -/
inductive VaultAction where
  | setAuthenticated (userId email : String)
  | setUnlocked (key : CryptoKeyModel) (salt : String)
  | setVaultData (items : List DecryptedVaultItem) (categories : List Category)
  | addItem (item : DecryptedVaultItem)
  | updateItem (id : String) (updates : ItemPatch)
  | removeItem (id : String)
  | setPreferences (autoLockMinutes clearClipboardSeconds : Nat)
  | setLoading (loading : Bool)
  | setError (error : Option String)
  | lockVault
  | logout

/-- One `set` call of the store, translated action by action from
`useVaultStore`. -/
def vaultStep (st : VaultState) : VaultAction → VaultState
  | VaultAction.setAuthenticated userId email =>
    { st with isAuthenticated := true, userId := some userId, email := some email }
  | VaultAction.setUnlocked key salt =>
    { st with encryptionKey := some key, salt := some salt, isUnlocked := true }
  | VaultAction.setVaultData items categories =>
    { st with items := items, categories := categories }
  | VaultAction.addItem item => { st with items := item :: st.items }
  | VaultAction.updateItem id u =>
    { st with items := st.items.map (fun it => if it.id = id then applyPatch it u else it) }
  | VaultAction.removeItem id =>
    { st with items := st.items.filter (fun it => it.id ≠ id) }
  | VaultAction.setPreferences a c =>
    { st with autoLockMinutes := a, clearClipboardSeconds := c }
  | VaultAction.setLoading l => { st with isLoading := l }
  | VaultAction.setError e => { st with error := e }
  | VaultAction.lockVault =>
    { st with encryptionKey := none, salt := none, isUnlocked := false, items := [] }
  | VaultAction.logout =>
    { st with
      isAuthenticated := false
      userId := none
      email := none
      encryptionKey := none
      salt := none
      isUnlocked := false
      items := []
      categories := [] }

/-- States reachable from the initial store state through store actions. -/
inductive Reachable : VaultState → Prop where
  | init : Reachable initialState
  | step {s : VaultState} (a : VaultAction) : Reachable s → Reachable (vaultStep s a)

/-! ## Unlock flow (src/app/vault/page.tsx `handleUnlock`) -/

/-- The profile row fetched by `getProfile`.  `failed_unlock_locked_until` is
a timestamp (milliseconds), compared against `now`. -/
structure Profile where
  id : String
  email : String
  kdf_salt : String
  verifier_hash : String
  failed_unlock_attempts : Nat
  failed_unlock_locked_until : Option Nat
  auto_lock_minutes : Nat
  clear_clipboard_seconds : Nat
deriving DecidableEq

/-- A vault item row fetched by `getVaultItems`. -/
structure StoredVaultItem where
  id : String
  title : String
  ciphertext : GcmSealed
  iv : String
  auth_tag : String
  category_id : Option String
  is_favorite : Bool
  last_accessed : String
  last_modified : String
  created_at : String
deriving DecidableEq

/-- One `updateProfile` call issued against the record store. -/
structure ProfileUpdateCall where
  userId : String
  failed_unlock_attempts : Option Nat := none
  failed_unlock_locked_until : Option (Option Nat) := none
deriving DecidableEq

/-- Outcome of `handleUnlock`: the store state after the handler finishes,
the surfaced error (the `setError` value from the catch branch, `none` on the
success path) and the list of `updateProfile` calls the handler issued. -/
structure UnlockOutcome where
  state : VaultState
  error : Option String
  profileUpdates : List ProfileUpdateCall
deriving DecidableEq

/-- The per-item decrypt-and-collect step of the unlock loop: a payload that
decrypts is merged with the row into a `DecryptedVaultItem`; a failure is
logged and the item skipped. -/
def decryptStoredItem (key : CryptoKeyModel) (item : StoredVaultItem) :
    Option DecryptedVaultItem :=
  match decryptVaultItem item.ciphertext item.iv key with
  | Except.ok payload =>
    some { id := item.id, title := item.title, ciphertext := item.ciphertext,
           iv := item.iv, auth_tag := item.auth_tag, category_id := item.category_id,
           is_favorite := item.is_favorite, last_accessed := item.last_accessed,
           last_modified := item.last_modified, created_at := item.created_at,
           username := payload.username, password := payload.password,
           url := payload.url, notes := payload.notes }
  | Except.error _ => none

/-- The body of `handleUnlock` after the lockout check: derive the key,
decrypt what decrypts, then `setUnlocked` and `setVaultData`. -/
def handleUnlockDerive (st : VaultState) (profile : Profile)
    (vaultItems : List StoredVaultItem) (password : String) : UnlockOutcome :=
  match deriveEncryptionKey password profile.kdf_salt with
  | none => { state := st, error := some "Unlock failed", profileUpdates := [] }
  | some key =>
    let decryptedItems := vaultItems.filterMap (decryptStoredItem key)
    { state := vaultStep (vaultStep st (VaultAction.setUnlocked key profile.kdf_salt))
        (VaultAction.setVaultData decryptedItems []),
      error := none, profileUpdates := [] }

/-- `handleUnlock` from src/app/vault/page.tsx: guard on authentication, check
an existing lockout timestamp, then derive and decrypt.  Every thrown error is
caught and surfaced through `setError`; the handler never writes the profile
row. -/
def handleUnlock (st : VaultState) (profile : Profile)
    (vaultItems : List StoredVaultItem) (password : String) (now : Nat) : UnlockOutcome :=
  match st.userId with
  | none => { state := st, error := some "Not authenticated", profileUpdates := [] }
  | some _ =>
    match profile.failed_unlock_locked_until with
    | some lockedUntil =>
      if now < lockedUntil then
        { state := st, error := some "Account locked. Try again in a few minutes.",
          profileUpdates := [] }
      else
        handleUnlockDerive st profile vaultItems password
    | none => handleUnlockDerive st profile vaultItems password

/-! ## Shared fixtures and helper lemmas for the claim theorems -/

deriving instance DecidableEq for Except

theorem ite_add_shift (c : Prop) [Decidable c] (a k : Nat) :
    (if c then a + k else a) = a + (if c then k else 0) := by
  split <;> omega

theorem getD_mem_of_lt {α : Type} (l : List α) (i : Nat) (d : α) (h : i < l.length) :
    l.getD i d ∈ l := by
  rw [List.getD_eq_getElem l d h]
  exact List.getElem_mem h

def testSalt : String := bufferToBase64 (List.replicate 16 0)

def testPayload : VaultItemPayload :=
  { username := "u@example.com", password := "p@ss1234",
    url := some "https://example.com", notes := none }

def emptyKey : CryptoKeyModel := { raw := [] }

def emptyDerived : DerivedKeys := { encryptionKey := emptyKey, verificationKey := "" }

def regKey : CryptoKeyModel :=
  (deriveEncryptionKey "VeryStrongPass123!!" testSalt).getD emptyKey

def emptyEncryptResult : EncryptResult :=
  { ciphertext := { body := [], tag := { tagKey := [], tagIv := [], tagBody := [] } }, iv := "" }

def sealedTest : EncryptResult :=
  (encryptVaultItem testPayload regKey (List.replicate 12 0)).getD emptyEncryptResult

def testStoredItem : StoredVaultItem :=
  { id := "item-1", title := "Example", ciphertext := sealedTest.ciphertext,
    iv := sealedTest.iv, auth_tag := "", category_id := none, is_favorite := false,
    last_accessed := "", last_modified := "", created_at := "" }

def testProfile : Profile :=
  { id := "user-1", email := "u@example.com", kdf_salt := testSalt,
    verifier_hash := ((deriveKeys "VeryStrongPass123!!" testSalt).getD emptyDerived).verificationKey,
    failed_unlock_attempts := 0, failed_unlock_locked_until := none,
    auto_lock_minutes := 5, clear_clipboard_seconds := 30 }

def testProfileLocked : Profile := { testProfile with failed_unlock_locked_until := some 2000 }

def authedState : VaultState :=
  vaultStep initialState (VaultAction.setAuthenticated "user-1" "u@example.com")

def allClassOptions : GenerateOptions :=
  { length := 20, includeUppercase := true, includeLowercase := true,
    includeNumbers := true, includeSymbols := true }

/-! ## Claim theorems -/

/-- C10: in every store state reachable from the initial state through the
store actions, `isUnlocked` implies the encryption key and the salt are
present, and both `lockVault` and `logout` yield a state with `isUnlocked`
false, no encryption key and an empty decrypted item list. -/
theorem C10_store_invariant (s : VaultState) (h : Reachable s) :
    (s.isUnlocked = true → s.encryptionKey ≠ none ∧ s.salt ≠ none)
    ∧ (vaultStep s VaultAction.lockVault).isUnlocked = false
    ∧ (vaultStep s VaultAction.lockVault).encryptionKey = none
    ∧ (vaultStep s VaultAction.lockVault).items = []
    ∧ (vaultStep s VaultAction.logout).isUnlocked = false
    ∧ (vaultStep s VaultAction.logout).encryptionKey = none
    ∧ (vaultStep s VaultAction.logout).items = [] := by
  refine ⟨?_, rfl, rfl, rfl, rfl, rfl, rfl⟩
  induction h with
  | init => intro hx; exact absurd hx (by decide)
  | step a ih => cases a <;> simp_all [vaultStep]

/-- Witness for C10 at the initial state. -/
theorem C10_store_invariant_witness :
    Reachable initialState ∧
    ((initialState.isUnlocked = true →
        initialState.encryptionKey ≠ none ∧ initialState.salt ≠ none)
      ∧ (vaultStep initialState VaultAction.lockVault).isUnlocked = false
      ∧ (vaultStep initialState VaultAction.lockVault).encryptionKey = none
      ∧ (vaultStep initialState VaultAction.lockVault).items = []
      ∧ (vaultStep initialState VaultAction.logout).isUnlocked = false
      ∧ (vaultStep initialState VaultAction.logout).encryptionKey = none
      ∧ (vaultStep initialState VaultAction.logout).items = []) :=
  ⟨Reachable.init, C10_store_invariant initialState Reachable.init⟩

/-- C9: the strength score is the additive heuristic of the claim — four
length thresholds worth 10 each, 10 per lower/upper/digit class, 20 for a
symbol, a 20 bonus when all four classes co-occur with length at least 16 —
capped at 100, hence always in [0,100]. -/
theorem C9_strength_formula (p : String) :
    estimatePasswordStrength p ≤ 100 ∧
    estimatePasswordStrength p =
      min ((if p.length ≥ 8 then 10 else 0) + (if p.length ≥ 12 then 10 else 0)
        + (if p.length ≥ 16 then 10 else 0) + (if p.length ≥ 20 then 10 else 0)
        + (if hasLowercase p then 10 else 0) + (if hasUppercase p then 10 else 0)
        + (if hasDigit p then 10 else 0) + (if hasSymbol p then 20 else 0)
        + (if p.length ≥ 16 && hasLowercase p && hasUppercase p
              && hasDigit p && hasSymbol p then 20 else 0)) 100 := by
  constructor
  · exact Nat.min_le_right _ _
  · unfold estimatePasswordStrength
    simp only [ite_add_shift, Nat.zero_add]

theorem String.data_mk_eq (l : List Char) : (String.mk l).data = l := rfl

/-- C8 counterexample: with the all-zero randomness draw, 20-character
all-classes generation returns twenty copies of the first charset character —
length 20 but no lowercase letter and no digit — so the generated password
does not always contain a character of every enabled class. -/
theorem C8_counterexample :
    (generatePassword allClassOptions (fun _ => 0)).length = 20
    ∧ generatePassword allClassOptions (fun _ => 0) = String.mk (List.replicate 20 'A')
    ∧ (generatePassword allClassOptions (fun _ => 0)).data.all
        (fun c => !('a' ≤ c && c ≤ 'z')) = true
    ∧ (generatePassword allClassOptions (fun _ => 0)).data.all
        (fun c => !('0' ≤ c && c ≤ '9')) = true := by decide

/-- C8 as amended: a 20-character all-classes generation always has length
exactly 20 and draws every character from the combined enabled charset, for
every randomness draw; per-class presence is likely but not guaranteed. -/
theorem C8_amended_length_charset (randomValues : Nat → Nat) :
    (generatePassword allClassOptions randomValues).length = 20
    ∧ ∀ c ∈ (generatePassword allClassOptions randomValues).data,
        c ∈ (buildCharset allClassOptions).data := by
  constructor
  · show ((String.mk _).data).length = 20
    rw [String.data_mk_eq]
    simp [allClassOptions]
  · intro c hc
    rw [generatePassword, String.data_mk_eq] at hc
    simp only [List.mem_map] at hc
    obtain ⟨i, _, rfl⟩ := hc
    apply getD_mem_of_lt
    apply Nat.mod_lt
    decide

/-- C7 counterexample: `encrypt` accepts and honors a caller-supplied nonce —
the sealed output carries the supplied nonce, not one generated internally
from the fresh randomness — refuting that seal never accepts caller nonces. -/
theorem C7_counterexample :
    (encrypt "payload" { raw := [2] } (some (bufferToBase64 (List.replicate 12 1)))
        (List.replicate 12 0)).map (fun r => r.iv)
      = some (bufferToBase64 (List.replicate 12 1))
    ∧ bufferToBase64 (List.replicate 12 1) ≠ bufferToBase64 (List.replicate 12 0) := by decide

/-- C7 as amended: when the caller omits the optional nonce — as every
repository call site does — `encrypt` uses exactly the 12 fresh random bytes
as the nonce, and two seal calls with distinct randomness draws yield a
different nonce and a different ciphertext. -/
theorem C7_amended_fresh_nonce (plaintext : String) (key : CryptoKeyModel)
    (rnd1 rnd2 : List Nat) (h1len : rnd1.length = 12) (h2len : rnd2.length = 12)
    (h1b : ∀ b ∈ rnd1, b < 256) (h2b : ∀ b ∈ rnd2, b < 256) (hne : rnd1 ≠ rnd2) :
    ∀ r1 r2, encrypt plaintext key none rnd1 = some r1 →
      encrypt plaintext key none rnd2 = some r2 →
      r1.iv = bufferToBase64 rnd1 ∧ r1.iv ≠ r2.iv ∧ r1.ciphertext ≠ r2.ciphertext := by
  intro r1 r2 e1 e2
  simp only [encrypt, Option.some.injEq] at e1 e2
  subst e1
  subst e2
  refine ⟨rfl, ?_, ?_⟩
  · intro h
    exact hne (bufferToBase64_injective rnd1 rnd2 h1b h2b h)
  · intro h
    have := congrArg (fun s => s.tag.tagIv) h
    simp only [aesGcmEncrypt] at this
    exact hne this

def c7rnd0 : List Nat := List.replicate 12 0

def c7rnd1 : List Nat := List.replicate 12 1

def c7res0 : EncryptResult := (encrypt "pt" { raw := [3] } none c7rnd0).getD emptyEncryptResult

def c7res1 : EncryptResult := (encrypt "pt" { raw := [3] } none c7rnd1).getD emptyEncryptResult

/-- Witness for the amended C7 theorem at concrete randomness draws. -/
theorem C7_amended_fresh_nonce_witness :
    (c7rnd0.length = 12 ∧ c7rnd1.length = 12 ∧ (∀ b ∈ c7rnd0, b < 256)
      ∧ (∀ b ∈ c7rnd1, b < 256) ∧ c7rnd0 ≠ c7rnd1)
    ∧ (c7res0.iv = bufferToBase64 c7rnd0 ∧ c7res0.iv ≠ c7res1.iv
      ∧ c7res0.ciphertext ≠ c7res1.ciphertext) :=
  ⟨⟨by decide, by decide, by decide, by decide, by decide⟩,
    C7_amended_fresh_nonce "pt" { raw := [3] } c7rnd0 c7rnd1 (by decide) (by decide)
      (by decide) (by decide) (by decide) c7res0 c7res1 (by rfl) (by rfl)⟩

def testSalt8 : String := bufferToBase64 (List.replicate 8 0)

/-- C6 counterexample: a salt that decodes to 8 bytes — not 16 — does not
make `deriveKeys` fail: derivation succeeds, so no wrong-salt-length
`KeyDerivationError` exists in the code. -/
theorem C6_counterexample :
    (base64ToBuffer testSalt8).map (fun l => l.length) = some 8
    ∧ (deriveKeys "AnyPassword123!" testSalt8).isSome = true := by decide

/-- C6 as amended: `deriveKeys` performs no salt-length validation — it
succeeds exactly when the salt string base64-decodes at all, whatever the
decoded length, and whenever it returns it returns the encryption key and the
verifier together in one record. -/
theorem C6_amended_no_salt_validation (password saltBase64 : String) :
    (deriveKeys password saltBase64).isSome = (base64ToBuffer saltBase64).isSome := by
  rcases h : base64ToBuffer saltBase64 with _ | l <;> simp [deriveKeys, h]

/-- Flip bit `j` of the byte at position `i`. -/
def flipBit (l : List Nat) (i j : Nat) : List Nat := l.set i ((l.getD i 0) ^^^ 2 ^ j)

theorem flipBit_ne (l : List Nat) (i j : Nat) (h : i < l.length) : flipBit l i j ≠ l := by
  intro he
  have h2 : (flipBit l i j).getD i 0 = l.getD i 0 := by rw [he]
  rw [flipBit, List.getD_eq_getElem _ _ (by simpa using h), List.getElem_set_self _,
    List.getD_eq_getElem _ _ h] at h2
  have h3 : l[i] ^^^ (l[i] ^^^ 2 ^ j) = l[i] ^^^ l[i] := by rw [h2]
  rw [← Nat.xor_assoc, Nat.xor_self, Nat.zero_xor] at h3
  exact Nat.pos_iff_ne_zero.mp (Nat.pos_pow_of_pos j (by norm_num)) h3

/-- C5: tampering with a sealed vault ciphertext — flipping any bit of the
ciphertext body, replacing the integrity tag, opening under a non-matching
key, or presenting a nonce that decodes to different bytes — makes `decrypt`
fail with the one observable `DecryptError.decryptionError`, while the
untampered triple opens to exactly the original plaintext, never an altered
one. -/
theorem C5_tamper_rejection (key : CryptoKeyModel) (ivBytes : List Nat) (plaintext : String)
    (hiv : ∀ b ∈ ivBytes, b < 256) :
    (∀ i j, i < (aesGcmEncrypt key ivBytes (textEncode plaintext)).body.length →
      decrypt { body := flipBit (aesGcmEncrypt key ivBytes (textEncode plaintext)).body i j,
                tag := (aesGcmEncrypt key ivBytes (textEncode plaintext)).tag }
        (bufferToBase64 ivBytes) key = Except.error DecryptError.decryptionError)
    ∧ (∀ t, t ≠ (aesGcmEncrypt key ivBytes (textEncode plaintext)).tag →
      decrypt { body := (aesGcmEncrypt key ivBytes (textEncode plaintext)).body, tag := t }
        (bufferToBase64 ivBytes) key = Except.error DecryptError.decryptionError)
    ∧ (∀ key2 : CryptoKeyModel, key2.raw ≠ key.raw →
      decrypt (aesGcmEncrypt key ivBytes (textEncode plaintext)) (bufferToBase64 ivBytes) key2
        = Except.error DecryptError.decryptionError)
    ∧ (∀ iv2 b2, base64ToBuffer iv2 = some b2 → b2 ≠ ivBytes →
      decrypt (aesGcmEncrypt key ivBytes (textEncode plaintext)) iv2 key
        = Except.error DecryptError.decryptionError)
    ∧ decrypt (aesGcmEncrypt key ivBytes (textEncode plaintext)) (bufferToBase64 ivBytes) key
        = Except.ok plaintext := by
  refine ⟨?_, ?_, ?_, ?_, ?_⟩
  · intro i j hi
    have hne : flipBit (aesGcmEncrypt key ivBytes (textEncode plaintext)).body i j
        ≠ (aesGcmEncrypt key ivBytes (textEncode plaintext)).body := flipBit_ne _ i j hi
    simp only [decrypt, base64_roundtrip ivBytes hiv, aesGcmDecrypt]
    rw [if_neg]
    · rfl
    · intro hc
      have := congrArg GcmTag.tagBody hc
      simp only [aesGcmEncrypt] at this
      exact hne this.symm
  · intro t ht
    simp only [decrypt, base64_roundtrip ivBytes hiv, aesGcmDecrypt]
    rw [if_neg]
    · rfl
    · intro hc
      exact ht (hc.trans (by simp [aesGcmEncrypt]))
  · intro key2 hk
    simp only [decrypt, base64_roundtrip ivBytes hiv, aesGcmDecrypt]
    rw [if_neg]
    · rfl
    · intro hc
      have := congrArg GcmTag.tagKey hc
      simp only [aesGcmEncrypt] at this
      exact hk this.symm
  · intro iv2 b2 hdec hne
    simp only [decrypt, hdec, aesGcmDecrypt]
    rw [if_neg]
    · rfl
    · intro hc
      have := congrArg GcmTag.tagIv hc
      simp only [aesGcmEncrypt] at this
      exact hne this.symm
  · simp only [decrypt, base64_roundtrip ivBytes hiv, aesGcmDecrypt, aesGcmEncrypt]
    simp [Except.map, xorStream_involution, textDecode_textEncode]

def c5key : CryptoKeyModel := { raw := [1] }

def c5iv : List Nat := List.replicate 12 0

/-- Witness for C5 at a concrete key, nonce and plaintext. -/
theorem C5_tamper_rejection_witness :
    (∀ b ∈ c5iv, b < 256)
    ∧ ((∀ i j, i < (aesGcmEncrypt c5key c5iv (textEncode "hi")).body.length →
      decrypt { body := flipBit (aesGcmEncrypt c5key c5iv (textEncode "hi")).body i j,
                tag := (aesGcmEncrypt c5key c5iv (textEncode "hi")).tag }
        (bufferToBase64 c5iv) c5key = Except.error DecryptError.decryptionError)
    ∧ (∀ t, t ≠ (aesGcmEncrypt c5key c5iv (textEncode "hi")).tag →
      decrypt { body := (aesGcmEncrypt c5key c5iv (textEncode "hi")).body, tag := t }
        (bufferToBase64 c5iv) c5key = Except.error DecryptError.decryptionError)
    ∧ (∀ key2 : CryptoKeyModel, key2.raw ≠ c5key.raw →
      decrypt (aesGcmEncrypt c5key c5iv (textEncode "hi")) (bufferToBase64 c5iv) key2
        = Except.error DecryptError.decryptionError)
    ∧ (∀ iv2 b2, base64ToBuffer iv2 = some b2 → b2 ≠ c5iv →
      decrypt (aesGcmEncrypt c5key c5iv (textEncode "hi")) iv2 c5key
        = Except.error DecryptError.decryptionError)
    ∧ decrypt (aesGcmEncrypt c5key c5iv (textEncode "hi")) (bufferToBase64 c5iv) c5key
        = Except.ok "hi") :=
  ⟨by decide, C5_tamper_rejection c5key c5iv "hi" (by decide)⟩

/-- C4: `deriveKeys` is deterministic and has exactly the claimed structure —
the encryption key is bytes [0:32) of the 64-byte PBKDF2-SHA-256 output at
600,000 iterations, and the verifier is a single SHA-256 hash of bytes
[32:64). -/
theorem C4_derive_deterministic_split (password saltBase64 : String) (salt : List Nat)
    (h : base64ToBuffer saltBase64 = some salt) :
    deriveKeys password saltBase64 = some
      { encryptionKey :=
          { raw := jsSlice (pbkdf2Sha256 (textEncode password) salt PBKDF2_ITERATIONS 64) 0 32 },
        verificationKey := bufferToBase64 (sha256Bytes
          (jsSlice (pbkdf2Sha256 (textEncode password) salt PBKDF2_ITERATIONS 64) 32 64)) }
    ∧ ∀ r1 r2 : DerivedKeys, deriveKeys password saltBase64 = some r1 →
        deriveKeys password saltBase64 = some r2 → r1 = r2 := by
  constructor
  · simp [deriveKeys, h]
  · intro r1 r2 e1 e2
    rw [e1] at e2
    exact Option.some.inj e2

/-- Witness for C4 at a concrete password and salt. -/
theorem C4_derive_deterministic_split_witness :
    base64ToBuffer testSalt = some (List.replicate 16 0)
    ∧ (deriveKeys "pw-example" testSalt = some
      { encryptionKey :=
          { raw := jsSlice (pbkdf2Sha256 (textEncode "pw-example") (List.replicate 16 0)
              PBKDF2_ITERATIONS 64) 0 32 },
        verificationKey := bufferToBase64 (sha256Bytes
          (jsSlice (pbkdf2Sha256 (textEncode "pw-example") (List.replicate 16 0)
              PBKDF2_ITERATIONS 64) 32 64)) }
    ∧ ∀ r1 r2 : DerivedKeys, deriveKeys "pw-example" testSalt = some r1 →
        deriveKeys "pw-example" testSalt = some r2 → r1 = r2) :=
  ⟨by decide, C4_derive_deterministic_split "pw-example" testSalt (List.replicate 16 0) (by decide)⟩

/-- C3: round trip — decrypting what `encryptVaultItem` sealed, with the same
key and the produced nonce, returns the original payload exactly, for every
payload, key and byte-valued randomness draw. -/
theorem C3_vault_item_roundtrip (payload : VaultItemPayload) (key : CryptoKeyModel)
    (rnd : List Nat) (hb : ∀ b ∈ rnd, b < 256) :
    ∀ r, encryptVaultItem payload key rnd = some r →
      decryptVaultItem r.ciphertext r.iv key = Except.ok payload := by
  intro r hr
  simp only [encryptVaultItem, encrypt, Option.some.injEq] at hr
  subst hr
  simp only [decryptVaultItem, decrypt, base64_roundtrip rnd hb, aesGcmDecrypt, aesGcmEncrypt]
  simp [Except.map, xorStream_involution, textDecode_textEncode, parseVaultItemPayload_stringify]

/-- Witness for C3 at a concrete payload, key and randomness draw. -/
theorem C3_vault_item_roundtrip_witness :
    (∀ b ∈ List.replicate 12 0, b < 256)
    ∧ decryptVaultItem sealedTest.ciphertext sealedTest.iv regKey = Except.ok testPayload :=
  ⟨by decide,
    C3_vault_item_roundtrip testPayload regKey (List.replicate 12 0) (by decide)
      sealedTest (by rfl)⟩

theorem handleUnlockDerive_no_profile_writes (st : VaultState) (profile : Profile)
    (vaultItems : List StoredVaultItem) (password : String) :
    (handleUnlockDerive st profile vaultItems password).profileUpdates = [] := by
  rcases h : deriveEncryptionKey password profile.kdf_salt with _ | k <;>
    simp [handleUnlockDerive, h]

/-- C1: unlocking with a wrong password is a code bug — the derived key fails
to decrypt the stored item (which the registration key decrypts fine), yet
`handleUnlock` reports no error, flips `isUnlocked` to true and installs the
wrong key, ending with an empty item list instead of failing. -/
theorem C1_wrong_password_unlocks_bug :
    (handleUnlock authedState testProfile [testStoredItem] "WrongPass1!!" 1000).error = none
    ∧ (handleUnlock authedState testProfile [testStoredItem] "WrongPass1!!" 1000).state.isUnlocked
        = true
    ∧ (handleUnlock authedState testProfile [testStoredItem] "WrongPass1!!" 1000).state.items = []
    ∧ (handleUnlock authedState testProfile [testStoredItem] "WrongPass1!!" 1000).state.encryptionKey
        = some ((deriveEncryptionKey "WrongPass1!!" testSalt).getD emptyKey)
    ∧ deriveEncryptionKey "WrongPass1!!" testSalt ≠ deriveEncryptionKey "VeryStrongPass123!!" testSalt
    ∧ decryptVaultItem testStoredItem.ciphertext testStoredItem.iv
        ((deriveEncryptionKey "WrongPass1!!" testSalt).getD emptyKey)
        = Except.error DecryptError.decryptionError
    ∧ decryptVaultItem testStoredItem.ciphertext testStoredItem.iv regKey
        = Except.ok testPayload := by
  refine ⟨by decide, by decide, by decide, by decide, by decide, by decide, by decide⟩

/-- C2: the failed-unlock counter and lockout are never written — the handler
issues no `updateProfile` call on any input, a concrete failed attempt leaves
the stored counter untouched and reports no error, and only a lockout
timestamp somebody else wrote is ever enforced. -/
theorem C2_lockout_counter_never_written :
    (∀ (st : VaultState) (profile : Profile) (vaultItems : List StoredVaultItem)
        (password : String) (now : Nat),
      (handleUnlock st profile vaultItems password now).profileUpdates = [])
    ∧ (handleUnlock authedState testProfile [testStoredItem] "WrongPass1!!" 1000).profileUpdates
        = []
    ∧ testProfile.failed_unlock_attempts = 0
    ∧ (handleUnlock authedState testProfile [testStoredItem] "WrongPass1!!" 1000).error = none
    ∧ (handleUnlock authedState testProfileLocked [testStoredItem] "VeryStrongPass123!!" 1000).error
        = some "Account locked. Try again in a few minutes."
    ∧ (handleUnlock authedState testProfileLocked [testStoredItem]
        "VeryStrongPass123!!" 1000).state.isUnlocked = false := by
  refine ⟨?_, by decide, by decide, by decide, by decide, by decide⟩
  intro st profile vaultItems password now
  rcases hu : st.userId with _ | u
  · simp [handleUnlock, hu]
  · rcases hl : profile.failed_unlock_locked_until with _ | t
    · simp [handleUnlock, hu, hl, handleUnlockDerive_no_profile_writes]
    · by_cases hn : now < t
      · simp [handleUnlock, hu, hl, hn]
      · simp [handleUnlock, hu, hl, hn, handleUnlockDerive_no_profile_writes]

/-- Witness for the amended C8 theorem at a concrete randomness draw. -/
theorem C8_amended_length_charset_witness :
    (generatePassword allClassOptions (fun _ => 7)).length = 20
    ∧ ∀ c ∈ (generatePassword allClassOptions (fun _ => 7)).data,
        c ∈ (buildCharset allClassOptions).data :=
  C8_amended_length_charset (fun _ => 7)

/-- Witness for the amended C6 theorem at a concrete password and salt. -/
theorem C6_amended_no_salt_validation_witness :
    (deriveKeys "pw-example" testSalt8).isSome = (base64ToBuffer testSalt8).isSome :=
  C6_amended_no_salt_validation "pw-example" testSalt8

/-- Witness for C9 at a concrete password. -/
theorem C9_strength_formula_witness :
    estimatePasswordStrength "Abc123!!" ≤ 100 ∧
    estimatePasswordStrength "Abc123!!" =
      min ((if ("Abc123!!" : String).length ≥ 8 then 10 else 0)
        + (if ("Abc123!!" : String).length ≥ 12 then 10 else 0)
        + (if ("Abc123!!" : String).length ≥ 16 then 10 else 0)
        + (if ("Abc123!!" : String).length ≥ 20 then 10 else 0)
        + (if hasLowercase "Abc123!!" then 10 else 0)
        + (if hasUppercase "Abc123!!" then 10 else 0)
        + (if hasDigit "Abc123!!" then 10 else 0)
        + (if hasSymbol "Abc123!!" then 20 else 0)
        + (if ("Abc123!!" : String).length ≥ 16 && hasLowercase "Abc123!!"
              && hasUppercase "Abc123!!" && hasDigit "Abc123!!"
              && hasSymbol "Abc123!!" then 20 else 0)) 100 :=
  C9_strength_formula "Abc123!!"
